import Mathlib

/-!
# Verification of the rt Environment Activation Orchestrator

Shallow embedding of the `rt` VS Code extension's environment activation
orchestrator (`RiotEnvManager` and its services) and proofs about it.

The embedding follows the refactored, service-based implementation
(`riotEnvManager` with `RtCliService`, `StatePersistenceService`,
`EnvironmentDisplayFormatter`), which the design notes designate as the
authoritative, stricter variant; the legacy manager's catalog-cache control
flow is embedded separately where a claim is about it.

Conventions of the embedding:
* JS string-keyed objects (`Record<string, string>`) become insertion-ordered
  association lists (`Rec`); JS object key duplication cannot occur at
  construction, and lookups model the "last write wins" JSON semantics.
* `localeCompare`-based sorting is modelled as code-point (lexicographic)
  string order; the two agree on the lowercase-ASCII keys considered here.
* Asynchronous methods become pure functions from an explicit oracle (the
  outcomes of the external CLI calls, the filesystem, and the cancellation
  token) and a state to a new state, a list of observable effects in program
  order, and an outcome.
* The platform is POSIX (`process.platform ≠ 'win32'`), matching the paths the
  build scripts target.
-/

namespace RtSpec

/-- Insertion-ordered string record, the model of `Record<string, string>`. -/
abbrev Rec := List (String × String)

/-- Lookup in a record; with duplicate keys the later entry wins, matching
`JSON.parse` object semantics. -/
def recLookup (m : Rec) (k : String) : Option String :=
  ((m.filter (fun e => e.1 == k)).map (fun e => e.2)).getLast?

/-- The JS `key in obj` test. -/
def recHas (m : Rec) (k : String) : Bool :=
  m.any (fun e => e.1 == k)

/-- One execution context of a venv (`RtExecutionContext` in `types/rtTypes.ts`). -/
structure RtExecutionContext where
  hash : String
  venv_path : String
  command : Option String
  pytest_target : Option String
  env : Rec
  create : Bool
  skip_dev_install : Bool
  deriving DecidableEq, Repr

/-- An environment descriptor (`RtVenv` in `types/rtTypes.ts`). -/
structure RtVenv where
  hash : String
  venv_path : String
  name : String
  python : String
  pkgs : Rec
  shared_pkgs : Rec
  shared_env : Rec
  execution_contexts : List RtExecutionContext
  deriving DecidableEq, Repr

/-! ## Display formatter (`formatters/environmentFormatter.ts`)

String primitives are restated by structural recursion on character lists so
that the kernel can evaluate them on concrete inputs: `charsLe` is code-point
lexicographic order (the model of `a.localeCompare(b) ≤ 0`), `splitOnChar` is
JS `String.prototype.split` with a one-character separator, and `joinSep` is
`Array.prototype.join`. -/

/-- Code-point lexicographic order on character lists. -/
def charsLe : List Char → List Char → Bool
  | [], _ => true
  | _ :: _, [] => false
  | a :: as, b :: bs => if a = b then charsLe as bs else decide (a.toNat < b.toNat)

/-- Code-point lexicographic order on strings, the model of the
`localeCompare`-based comparator (the two orders agree on the lowercase-ASCII
keys this extension deals in). -/
def strLe (a b : String) : Bool := charsLe a.toList b.toList

/-- JS `str.split(sep)` for a one-character separator: always returns at least
one (possibly empty) group. -/
def splitOnChar (sep : Char) : List Char → List (List Char)
  | [] => [[]]
  | c :: rest =>
    let r := splitOnChar sep rest
    if c = sep then [] :: r
    else
      match r with
      | [] => [[c]]
      | g :: gs => (c :: g) :: gs

/-- JS `parts.join(sep)`. -/
def joinSep (sep : String) : List String → String
  | [] => ""
  | [x] => x
  | x :: xs => x ++ sep ++ joinSep sep xs

/-- Stable insertion of one entry into a key-sorted record: the new entry goes
after every entry whose key is `≤` its key. -/
def insertEntry (x : String × String) : Rec → Rec
  | [] => [x]
  | y :: ys => if strLe y.1 x.1 then y :: insertEntry x ys else x :: y :: ys

/-- Stable sort of record entries by key, the model of
`entries.sort(([a], [b]) => a.localeCompare(b))`. -/
def sortEntriesByKey (entries : Rec) : Rec :=
  entries.foldl (fun acc e => insertEntry e acc) []

/-- `EnvironmentDisplayFormatter.formatEntries` with the default `maxEntries = 2`
(the only way the source calls it): sort entries by key, render the first two as
`key=value` (empty value shown as `latest`), comma-join, and append
` +<n> more` when entries were truncated; an empty record yields `none`. -/
def formatEntries (map : Rec) : Option String :=
  if map.length = 0 then none
  else
    let entries := sortEntriesByKey map
    let shown := (entries.take 2).map
      (fun e => e.1 ++ "=" ++ (if e.2 == "" then "latest" else e.2))
    let remaining := entries.length - shown.length
    let tail := if remaining > 0 then " +" ++ toString remaining ++ " more" else ""
    some (joinSep ", " shown ++ tail)

/-- `EnvironmentDisplayFormatter.getUniquePackages`: the package entries absent
from, or differing from, the shared-packages record; if that set is empty, all
packages. -/
def getUniquePackages (venv : RtVenv) : Rec :=
  let diff := venv.pkgs.filter
    (fun e => !(recHas venv.shared_pkgs e.1) || recLookup venv.shared_pkgs e.1 != some e.2)
  if diff.length > 0 then diff else venv.pkgs

/-- `EnvironmentDisplayFormatter.getContextEnvDiff`: the context env entries
absent from, or differing from, the descriptor's shared-env record. -/
def getContextEnvDiff (ctx : RtExecutionContext) (venv : RtVenv) : Rec :=
  ctx.env.filter
    (fun e => !(recHas venv.shared_env e.1) || recLookup venv.shared_env e.1 != some e.2)

/-- Maximal leading digit run of a component, the model of
`part.match(/^\d+/)?.[0]` (the empty result standing for a failed match). -/
def leadingDigits (cs : List Char) : List Char :=
  cs.takeWhile Char.isDigit

/-- `Number.parseInt` on a pure digit string. -/
def digitsToNat (cs : List Char) : Nat :=
  cs.foldl (fun n c => n * 10 + (c.toNat - 48)) 0

/-- The numeric components `normalizePythonVersion` extracts before its
`.slice(0, 3)`: split on `.`, keep each component's leading digit run
(dropping components without one), and parse. -/
def parsedVersionParts (version : String) : List Nat :=
  (((splitOnChar '.' version.toList).map leadingDigits).filter (fun p => p ≠ [])).map
    digitsToNat

/-- `EnvironmentDisplayFormatter.normalizePythonVersion`: split on `.`, keep each
component's leading digit run (dropping components without one), parse, keep at
most three components, and zero-fill to three; when nothing parses, return the
input unchanged. -/
def normalizePythonVersion (version : String) : String :=
  let parts := (parsedVersionParts version).take 3
  if parts.length = 0 then version
  else
    joinSep "." ((parts ++ List.replicate (3 - parts.length) 0).map (fun n => toString n))

/-- Result of `buildDisplayNames`. -/
structure EnvironmentNames where
  displayName : String
  shortDisplayName : String
  deriving DecidableEq, Repr

/-- `EnvironmentDisplayFormatter.buildDisplayNames`. -/
def buildDisplayNames (venv : RtVenv) (ctx : RtExecutionContext) : EnvironmentNames :=
  let pkgDetail := formatEntries (getUniquePackages venv)
  let envDetail := formatEntries (getContextEnvDiff ctx venv)
  let details0 := [pkgDetail, envDetail].filterMap id
  let details := if details0.length = 0 then [ctx.hash] else details0
  let separator := " | "
  let headStr := venv.name ++ " (" ++ venv.python ++ ")" ++ separator
  let displayName := headStr ++ joinSep separator details
  let firstDetail := details.headD ""
  let shortTail :=
    if details.length > 1 then
      firstDetail ++ " +" ++ toString (details.length - 1) ++ " more"
    else firstDetail
  { displayName := displayName, shortDisplayName := headStr ++ shortTail }

/-! ## Materialized activation candidates (`riotEnvManager.buildEnvironment`)

`PythonEnvironment` is projected to the fields the orchestrator reads: the
stable identity (`envId = ctx.hash`), the display metadata, and the resolved
interpreter executable. -/

/-- The orchestrator's view of a materialized `PythonEnvironment`. -/
structure PyEnv where
  name : String
  displayName : String
  shortDisplayName : String
  version : String
  environmentPath : String
  runExecutable : String
  envId : String
  deriving DecidableEq, Repr

/-- `getPythonPath` on POSIX: `path.join(venvPath, 'bin', 'python')`. -/
def pythonPathOf (venvPath : String) : String :=
  venvPath ++ "/bin/python"

/-- `RiotEnvManager.buildEnvironment`: materialize one (descriptor, context)
pair into a candidate; its identity is the context hash. -/
def buildEnvironment (venv : RtVenv) (ctx : RtExecutionContext) : PyEnv :=
  let names := buildDisplayNames venv ctx
  { name := venv.name
    displayName := names.displayName
    shortDisplayName := names.shortDisplayName
    version := venv.python
    environmentPath := ctx.venv_path
    runExecutable := pythonPathOf ctx.venv_path
    envId := ctx.hash }

/-- The success path of `RiotEnvManager.fetchEnvironments`: normalize each
descriptor's Python version, then expand every (descriptor, context) pair. -/
def materializeVenvs (venvs : List RtVenv) : List PyEnv :=
  venvs.flatMap (fun v =>
    let v2 := { v with python := normalizePythonVersion v.python }
    v2.execution_contexts.map (fun ctx => buildEnvironment v2 ctx))

/-- `RiotEnvManager.findVenvByHash`: first descriptor whose own hash or one of
whose context hashes matches. -/
def findVenvByHash (venvs : List RtVenv) (hash : String) : Option RtVenv :=
  venvs.find? (fun v => v.hash == hash || v.execution_contexts.any (fun c => c.hash == hash))

/-! ## Change notifier (`RiotEnvManager.computeChanges`) -/

/-- The two kinds of catalog change events. -/
inductive ChangeKind where
  | add
  | remove
  deriving DecidableEq, Repr

/-- One catalog change event. -/
structure EnvChange where
  kind : ChangeKind
  environment : PyEnv
  deriving DecidableEq, Repr

/-- `RiotEnvManager.computeChanges`: one `add` per `next` entry whose identity
is absent from `previous` (in `next`'s order), then one `remove` per `previous`
entry whose identity is absent from `next` (in `previous`'s order). -/
def computeChanges (previous next : List PyEnv) : List EnvChange :=
  let prevIds := previous.map (fun e => e.envId)
  let nextIds := next.map (fun e => e.envId)
  (next.filter (fun e => !(prevIds.contains e.envId))).map
      (fun e => { kind := ChangeKind.add, environment := e })
    ++ (previous.filter (fun e => !(nextIds.contains e.envId))).map
      (fun e => { kind := ChangeKind.remove, environment := e })

/-! ## Activation coordinator (`RiotEnvManager.set` / `activateEnvironment` /
`clearEnvironment` / `restoreEnvironment` / `get`)

The per-workspace mutable state is the current candidate and the persisted
selection. A run of an operation yields the new state, the list of observable
effects in program order, and an outcome. The oracle (`ActCtx` / `RestoreCtx`)
fixes the outcomes of the external collaborators: the build subprocess, the
`rt list` discovery call, the filesystem existence test, and — for an
activation — the suspension point during which the cancellation token is
aborted, if any. Suspension points of `activateEnvironment` are numbered
0 = the build call, 1 = the list call, 2 = the test-configuration write,
3 = the persisted-selection write; only the build call is handed the abort
signal in the source, which the semantics mirrors. -/

/-- Per-workspace orchestrator state: `currentEnvironment.get(cwd)` and the
persisted last-selection id. -/
structure OrchState where
  current : Option PyEnv
  persisted : Option String
  deriving DecidableEq, Repr

/-- Observable effects of one operation, in program order. -/
inductive Effect where
  /-- `rt build <hash>` invoked. -/
  | buildCall (hash : String)
  /-- the in-flight build subprocess terminated by an abort. -/
  | killBuild (hash : String)
  /-- `rt list --json` invoked. -/
  | listCall
  /-- test-configuration sink written (`some ctx`) or cleared (`none`). -/
  | configWrite (ctx : Option RtExecutionContext)
  /-- persisted-selection store written. -/
  | persistWrite (v : Option String)
  /-- in-memory current-candidate transition. -/
  | setCurrent (v : Option PyEnv)
  /-- selection-changed event fired. -/
  | fireEvent (old : Option PyEnv) (next : Option PyEnv)
  deriving DecidableEq, Repr

/-- How one `set`/activation settles for its caller. -/
inductive ActOutcome where
  /-- resolved normally. -/
  | completed
  /-- a `CancellationError` was caught and swallowed. -/
  | cancelled
  /-- a genuine failure propagated to the caller. -/
  | failed (msg : String)
  deriving DecidableEq, Repr

/-- Oracle for one activation run. -/
structure ActCtx where
  /-- suspension point during which `controller.abort()` fires, if any. -/
  abortAt : Option Nat
  /-- outcome of the build subprocess when it is not aborted. -/
  buildResult : Except String Unit
  /-- outcome of the `rt list --json` call. -/
  listResult : Except String (List RtVenv)
  /-- filesystem existence of a path (`fs.existsSync`). -/
  fsExists : String → Bool

/-- `RiotEnvManager.activateEnvironment` (part of `set` with a candidate):
run the build honoring the abort signal; on success list the catalog, resolve
the candidate's descriptor and context, rebuild the candidate, verify its
interpreter exists; then write the test configuration, set the in-memory
current candidate, persist the selection, and fire the selection-changed
event. A `CancellationError` from the build is caught and swallowed; every
other failure propagates. Suspension points after the build never observe the
abort signal, exactly as in the source. -/
def activateEnvironmentRun (o : ActCtx) (s : OrchState) (env : PyEnv)
    (previous : Option PyEnv) : OrchState × List Effect × ActOutcome :=
  let tr0 := [Effect.buildCall env.envId]
  if o.abortAt = some 0 then
    (s, tr0, ActOutcome.cancelled)
  else
    match o.buildResult with
    | Except.error m => (s, tr0, ActOutcome.failed m)
    | Except.ok _ =>
      let tr1 := tr0 ++ [Effect.listCall]
      match o.listResult with
      | Except.error m => (s, tr1, ActOutcome.failed m)
      | Except.ok venvs =>
        match findVenvByHash venvs env.envId with
        | none =>
          (s, tr1, ActOutcome.failed ("Environment " ++ env.envId ++ " not found after build"))
        | some venv =>
          match venv.execution_contexts.find? (fun c => c.hash == env.envId) with
          | none =>
            (s, tr1,
              ActOutcome.failed ("Execution context " ++ env.envId ++ " not found after build"))
          | some ctx =>
            let activated := buildEnvironment venv ctx
            if !(o.fsExists activated.runExecutable) then
              (s, tr1,
                ActOutcome.failed ("Environment interpreter not found: " ++ activated.runExecutable))
            else
              ({ current := some activated, persisted := some activated.envId },
                tr1 ++ [Effect.configWrite (some ctx),
                        Effect.setCurrent (some activated),
                        Effect.persistWrite (some activated.envId),
                        Effect.fireEvent previous (some activated)],
                ActOutcome.completed)

/-- `RiotEnvManager.clearEnvironment` (the `set` path with no candidate):
clear the test configuration, clear the persisted selection, drop the current
candidate, and fire the selection-changed event to `none` — unconditionally. -/
def clearEnvironmentRun (s : OrchState) : OrchState × List Effect :=
  ({ current := none, persisted := none },
    [Effect.configWrite none,
     Effect.persistWrite none,
     Effect.setCurrent none,
     Effect.fireEvent s.current none])

/-- The superseding scenario of `RiotEnvManager.set`: `set(w, A)` starts an
activation whose controller is registered in `ongoingActivations`; while its
build is pending, `set(w, B)` arrives, reads the unchanged previous candidate,
and calls `abort()` on that controller. The abort synchronously terminates A's
build subprocess and rejects A's pending build await with a
`CancellationError`, so A's activation is exactly an `activateEnvironmentRun`
whose token aborts during suspension point 0; its resumed continuation merely
swallows the cancellation and, finding B's controller registered, leaves it in
place. B's activation then runs under its own oracle. The combined effect
trace is A's effects, the subprocess kill at abort time, then B's effects. -/
def setSupersede (oA oB : ActCtx) (s : OrchState) (envA envB : PyEnv) :
    OrchState × List Effect × ActOutcome :=
  let aRun := activateEnvironmentRun { oA with abortAt := some 0 } s envA s.current
  let bRun := activateEnvironmentRun oB aRun.1 envB aRun.1.current
  (bRun.1, aRun.2.1 ++ [Effect.killBuild envA.envId] ++ bRun.2.1, bRun.2.2)

/-- Oracle for one restoration run (`restoreEnvironment` passes no abort
signal to the CLI, so there is no cancellation there). -/
structure RestoreCtx where
  /-- outcome of the `rt build <savedId>` call. -/
  buildResult : Except String Unit
  /-- outcome of the `rt list --json` call made by `fetchEnvironments`. -/
  listResult : Except String (List RtVenv)
  /-- filesystem existence of a path (`fs.existsSync`). -/
  fsExists : String → Bool

/-- The candidate list the restoration path sees: `fetchEnvironments` absorbs
a failed `rt list` call into an empty catalog and otherwise materializes the
parsed descriptors. -/
def restoreCatalog (o : RestoreCtx) : List PyEnv :=
  match o.listResult with
  | Except.error _ => []
  | Except.ok venvs => materializeVenvs venvs

/-- `RiotEnvManager.restoreEnvironment`: read the persisted id (nothing stored
means return nothing with no work); rebuild it, clearing the persisted
selection and returning nothing on a build failure; then re-fetch the catalog
(`fetchEnvironments` absorbs list failures into an empty catalog), look the id
up, and verify the interpreter exists — on either miss clear the persisted
selection and return nothing; on success set the current candidate and return
it. No failure escapes to the caller. -/
def restoreEnvironmentRun (o : RestoreCtx) (s : OrchState) :
    OrchState × List Effect × Option PyEnv :=
  match s.persisted with
  | none => (s, [], none)
  | some savedId =>
    let tr0 := [Effect.buildCall savedId]
    match o.buildResult with
    | Except.error _ =>
      ({ current := none, persisted := none },
        tr0 ++ [Effect.persistWrite none, Effect.setCurrent none], none)
    | Except.ok _ =>
      let tr1 := tr0 ++ [Effect.listCall]
      match (restoreCatalog o).find? (fun e => e.envId == savedId) with
      | none =>
        ({ current := none, persisted := none },
          tr1 ++ [Effect.persistWrite none, Effect.setCurrent none], none)
      | some restored =>
        if !(o.fsExists restored.runExecutable) then
          ({ current := none, persisted := none },
            tr1 ++ [Effect.persistWrite none, Effect.setCurrent none], none)
        else
          ({ current := some restored, persisted := s.persisted },
            tr1 ++ [Effect.setCurrent (some restored)], some restored)

/-- `RiotEnvManager.get` for a resolved workspace: return the current
candidate when it is set and its interpreter still exists; otherwise drop it
and attempt restoration. -/
def getEnvRun (o : RestoreCtx) (s : OrchState) :
    OrchState × List Effect × Option PyEnv :=
  match s.current with
  | some cur =>
    if o.fsExists cur.runExecutable then (s, [], some cur)
    else
      let r := restoreEnvironmentRun o { s with current := none }
      (r.1, Effect.setCurrent none :: r.2.1, r.2.2)
  | none =>
    let r := restoreEnvironmentRun o { s with current := none }
    (r.1, Effect.setCurrent none :: r.2.1, r.2.2)

/-! ## CLI output parsing (`services/rtCliService.ts`)

`JSON.parse` output is modelled by `JVal`; object fields keep insertion order
and lookups take the last occurrence of a key, matching `JSON.parse`'s
duplicate-key semantics. -/

/-- A parsed JSON value. -/
inductive JVal where
  | str (s : String)
  | num (n : Int)
  | jbool (b : Bool)
  | jnull
  | arr (elems : List JVal)
  | obj (fields : List (String × JVal))

/-- JS property access `obj[k]` on parsed JSON: `none` models `undefined`. -/
def jLookup (fields : List (String × JVal)) (k : String) : Option JVal :=
  ((fields.filter (fun e => e.1 == k)).map (fun e => e.2)).getLast?

/-- `RtCliService.isValidRtVenv`: an object carrying string `hash`,
`venv_path`, `name` and `python` fields and an array `execution_contexts`
field. (A JS array passes the `typeof` test but has none of the required
string properties, so it is rejected there too.) -/
def isValidRtVenv : JVal → Bool
  | JVal.obj fields =>
    (match jLookup fields "hash" with | some (JVal.str _) => true | _ => false)
      && (match jLookup fields "venv_path" with | some (JVal.str _) => true | _ => false)
      && (match jLookup fields "name" with | some (JVal.str _) => true | _ => false)
      && (match jLookup fields "python" with | some (JVal.str _) => true | _ => false)
      && (match jLookup fields "execution_contexts" with | some (JVal.arr _) => true | _ => false)
  | _ => false

/-- A venv as retained by `parseVenvs`: the five validated fields typed, the
unvalidated package/env records kept as raw JSON. -/
structure RawVenv where
  hash : String
  venv_path : String
  name : String
  python : String
  pkgs : JVal
  shared_pkgs : JVal
  shared_env : JVal
  execution_contexts : List JVal

/-- The `??`-defaulting of `RtCliService.normalizeVenv`: an absent
(`undefined`) or `null` field becomes an empty object. -/
def defaultRec (v : Option JVal) : JVal :=
  match v with
  | none => JVal.obj []
  | some JVal.jnull => JVal.obj []
  | some w => w

/-- Field extraction for one element that passed `isValidRtVenv`, combined
with `RtCliService.normalizeVenv`'s defaulting of `pkgs`, `shared_pkgs` and
`shared_env`; `none` when the shape test would have failed. -/
def extractVenv : JVal → Option RawVenv
  | JVal.obj fields =>
    match jLookup fields "hash", jLookup fields "venv_path", jLookup fields "name",
        jLookup fields "python", jLookup fields "execution_contexts" with
    | some (JVal.str h), some (JVal.str vp), some (JVal.str nm),
        some (JVal.str py), some (JVal.arr ctxs) =>
      some { hash := h, venv_path := vp, name := nm, python := py
             pkgs := defaultRec (jLookup fields "pkgs")
             shared_pkgs := defaultRec (jLookup fields "shared_pkgs")
             shared_env := defaultRec (jLookup fields "shared_env")
             execution_contexts := ctxs }
    | _, _, _, _, _ => none
  | _ => none

/-- `RtCliService.parseVenvs` on an array JSON root:
`parsed.filter(isValidRtVenv).map(normalizeVenv)`. -/
def parseVenvsArr (xs : List JVal) : List RawVenv :=
  (xs.filter isValidRtVenv).filterMap extractVenv

/-- The retained-element shape stated in the claim's words, independently of
the boolean guard: an object carrying a string `hash`, a string `venv_path`, a
string `name`, a string `python`, and an array `execution_contexts`. -/
def ValidShape (v : JVal) : Prop :=
  ∃ fields, v = JVal.obj fields
    ∧ (∃ s, jLookup fields "hash" = some (JVal.str s))
    ∧ (∃ s, jLookup fields "venv_path" = some (JVal.str s))
    ∧ (∃ s, jLookup fields "name" = some (JVal.str s))
    ∧ (∃ s, jLookup fields "python" = some (JVal.str s))
    ∧ (∃ xs, jLookup fields "execution_contexts" = some (JVal.arr xs))

/-! ## Legacy catalog-cache control flow (the first `RiotEnvManager`'s
`fetchEnvironments`) -/

/-- The outcome of `runRt(['list','--json'])` followed by `JSON.parse`. -/
inductive DiscoveryOutcome where
  /-- the subprocess rejected (non-zero exit, spawn failure). -/
  | execError (msg : String)
  /-- `JSON.parse` threw on the output. -/
  | parseError (msg : String)
  /-- `JSON.parse` produced this value. -/
  | parsed (v : JVal)

/-- Control flow of the legacy `fetchEnvironments(cwd, force)`: without
`force` a cached snapshot is served as is. Otherwise, a parsed array root is
materialized (the per-element pipeline of lines 540–555 is the `materialize`
parameter — the claims under study depend only on the failure paths) and
cached; a parsed non-array root returns the empty list, leaving the cache
untouched; a subprocess or parse failure is caught and answered with the
cached snapshot, or the empty list when none exists. Nothing throws. -/
def fetchEnvironmentsCF (materialize : List JVal → List PyEnv)
    (cache : Option (List PyEnv)) (force : Bool) (d : DiscoveryOutcome) :
    List PyEnv × Option (List PyEnv) :=
  match cache, force with
  | some c, false => (c, some c)
  | _, _ =>
    match d with
    | DiscoveryOutcome.execError _ => (cache.getD [], cache)
    | DiscoveryOutcome.parseError _ => (cache.getD [], cache)
    | DiscoveryOutcome.parsed v =>
      match v with
      | JVal.arr xs =>
        let envs := materialize xs
        (envs, some envs)
      | _ => ([], cache)

/-! ## Display-name algorithm (claim C9)

The reference algorithm is written out a second time following the
specification's wording — lookup-based diffing, map-before-truncate
formatting, an arithmetic truncation test — to be compared with the
source-derived `buildDisplayNames`. -/

/-- Modelled from the spec: package entries absent from or differing from the
shared-packages map, falling back to all packages when that set is empty. -/
def specPkgDetailSource (venv : RtVenv) : Rec :=
  let changed := venv.pkgs.filter
    (fun e => decide (¬ recLookup venv.shared_pkgs e.1 = some e.2))
  if changed = [] then venv.pkgs else changed

/-- Modelled from the spec: context variable entries absent from or differing
from the descriptor's shared-env map. -/
def specEnvDiffSource (ctx : RtExecutionContext) (venv : RtVenv) : Rec :=
  ctx.env.filter (fun e => decide (¬ recLookup venv.shared_env e.1 = some e.2))

/-- Modelled from the spec: a detail map formats as its entries sorted
lexicographically by key, the first two rendered as `key=value` (empty value
rendered as the literal `latest`), comma-joined, with a ` +<n> more` suffix
exactly when more than two entries exist; an empty map is omitted. -/
def specFormatDetail (m : Rec) : Option String :=
  if m = [] then none
  else
    let sorted := sortEntriesByKey m
    let rendered := sorted.map (fun e => e.1 ++ "=" ++ (if e.2 == "" then "latest" else e.2))
    let txt := joinSep ", " (rendered.take 2)
    some (if sorted.length ≤ 2 then txt
          else txt ++ " +" ++ toString (sorted.length - 2) ++ " more")

/-- Modelled from the spec: `<name> (<python>)` then the present detail
segments joined by ` | `, the context hash standing in when both are absent. -/
def specDisplayName (venv : RtVenv) (ctx : RtExecutionContext) : String :=
  let segs := [specFormatDetail (specPkgDetailSource venv),
               specFormatDetail (specEnvDiffSource ctx venv)].filterMap id
  let segs2 := if segs = [] then [ctx.hash] else segs
  venv.name ++ " (" ++ venv.python ++ ")" ++ " | " ++ joinSep " | " segs2


/-! ## Concrete fixtures for witnesses and counterexamples -/

/-- A candidate with a given identity and display name, the other fields
fixed; used to instantiate theorems at concrete inputs. -/
def pe (i d : String) : PyEnv :=
  { name := "n", displayName := d, shortDisplayName := d, version := "3.0.0"
    environmentPath := "/ws/.venv", runExecutable := "/ws/.venv/bin/python", envId := i }

/-- A context with hash `h1` and a pytest target. -/
def ctx1 : RtExecutionContext :=
  { hash := "h1", venv_path := "/ws/.rt/venv_h1", command := none
    pytest_target := some "tests/test_a.py", env := [], create := false
    skip_dev_install := false }

/-- A descriptor owning `ctx1`. -/
def venv1 : RtVenv :=
  { hash := "v1", venv_path := "/ws/.rt/venv_v1", name := "py3", python := "3.11"
    pkgs := [], shared_pkgs := [], shared_env := [], execution_contexts := [ctx1] }

/-- The candidate materialized from `venv1` and `ctx1`. -/
def cand1 : PyEnv := buildEnvironment venv1 ctx1

/-- The empty per-workspace state. -/
def s0 : OrchState := { current := none, persisted := none }

/-- Oracle of a fully successful activation. -/
def oracleSuccess : ActCtx :=
  { abortAt := none, buildResult := Except.ok (), listResult := Except.ok [venv1]
    fsExists := fun _ => true }

/-- Oracle of an activation whose token aborts during the catalog re-fetch
(suspension point 1), after the build settled. -/
def oracleAbortDuringList : ActCtx :=
  { abortAt := some 1, buildResult := Except.ok (), listResult := Except.ok [venv1]
    fsExists := fun _ => true }

/-- Oracle of a fully successful restoration. -/
def oracleRestoreOk : RestoreCtx :=
  { buildResult := Except.ok (), listResult := Except.ok [venv1], fsExists := fun _ => true }

/-- Oracle of a restoration whose rebuild fails. -/
def oracleRestoreFail : RestoreCtx :=
  { buildResult := Except.error "exit 1", listResult := Except.ok [venv1]
    fsExists := fun _ => true }

/-- The fixture candidate as the restoration path re-materializes it (with the
normalized Python version). -/
def cand1n : PyEnv :=
  buildEnvironment { venv1 with python := normalizePythonVersion venv1.python } ctx1

/-- Recognizer for the in-memory current-candidate transition effect. -/
def isSetCurrentEff : Effect → Bool
  | Effect.setCurrent _ => true
  | _ => false

/-- Recognizer for the persisted-selection write effect. -/
def isPersistWriteEff : Effect → Bool
  | Effect.persistWrite _ => true
  | _ => false

/-! # Theorems -/

/-! ## Version normalization (claim C8) -/

/-- Auxiliary: appending `"."` before a numeric tail associates as expected. -/
theorem string_append_assoc (a b c : String) : a ++ b ++ c = a ++ (b ++ c) := by
  apply String.ext
  simp [String.data_append, List.append_assoc]

/-- C8: `normalizePythonVersion` maps every version string with at least one
parseable component to a 3-component numeric form, zero-filling missing
trailing components and dropping non-numeric trailing garbage inside a
component before parsing; a wholly unparseable version string is returned
unchanged; in particular `"3.11.2" ↦ "3.11.2"`, `"3.11" ↦ "3.11.0"`,
`"3" ↦ "3.0.0"`, and `"abc"` comes back unchanged. -/
theorem C8_normalizePythonVersion_spec :
    (normalizePythonVersion "3.11.2" = "3.11.2"
      ∧ normalizePythonVersion "3.11" = "3.11.0"
      ∧ normalizePythonVersion "3" = "3.0.0"
      ∧ normalizePythonVersion "abc" = "abc"
      ∧ normalizePythonVersion "3.11rc1" = "3.11.0")
    ∧ (∀ version : String,
        (∀ p ∈ splitOnChar '.' version.toList, leadingDigits p = []) →
        normalizePythonVersion version = version)
    ∧ (∀ version : String, ∀ a : Nat,
        parsedVersionParts version = [a] →
        normalizePythonVersion version = toString a ++ ".0.0")
    ∧ (∀ version : String, ∀ a b : Nat,
        parsedVersionParts version = [a, b] →
        normalizePythonVersion version = toString a ++ "." ++ toString b ++ ".0")
    ∧ (∀ version : String, ∀ a b c : Nat, ∀ rest : List Nat,
        parsedVersionParts version = a :: b :: c :: rest →
        normalizePythonVersion version =
          toString a ++ "." ++ toString b ++ "." ++ toString c) := by
  refine ⟨⟨by decide, by decide, by decide, by decide, by decide⟩, ?_, ?_, ?_, ?_⟩
  · intro version h
    have hfilter :
        ((splitOnChar '.' version.toList).map leadingDigits).filter (fun p => p ≠ []) = [] := by
      rw [List.filter_eq_nil_iff]
      intro p hp
      simp only [List.mem_map] at hp
      obtain ⟨q, hq, rfl⟩ := hp
      simpa using h q hq
    have hparts : parsedVersionParts version = [] := by
      unfold parsedVersionParts
      rw [hfilter]
      rfl
    simp [normalizePythonVersion, hparts]
  · intro version a h
    have h0 : toString (0 : Nat) = "0" := rfl
    simp [normalizePythonVersion, h, joinSep, h0, string_append_assoc]
  · intro version a b h
    have h0 : toString (0 : Nat) = "0" := rfl
    simp [normalizePythonVersion, h, joinSep, h0, string_append_assoc]
  · intro version a b c rest h
    simp [normalizePythonVersion, h, joinSep, string_append_assoc]

/-- Witness for C8 at concrete inputs: the singleton-component and
two-component zero-filling cases instantiated. -/
theorem C8_witness :
    normalizePythonVersion "9rc" = toString 9 ++ ".0.0"
      ∧ normalizePythonVersion "9.8" = toString 9 ++ "." ++ toString 8 ++ ".0" :=
  ⟨C8_normalizePythonVersion_spec.2.2.1 "9rc" 9 (by rfl),
   C8_normalizePythonVersion_spec.2.2.2.1 "9.8" 9 8 (by rfl)⟩

/-- Auxiliary: an `if` on list length versus an `if` on list emptiness. -/
theorem if_pos_length_eq (l fb : Rec) :
    (if 0 < l.length then l else fb) = (if l = [] then fb else l) := by
  cases l <;> simp

/-- Auxiliary: a key the `in`-test misses has no lookup value. -/
theorem recLookup_eq_none_of_recHas_false (m : Rec) (k : String)
    (h : recHas m k = false) : recLookup m k = none := by
  induction m with
  | nil => rfl
  | cons e rest ih =>
    simp only [recHas, List.any_cons, Bool.or_eq_false_iff] at h
    have h2 := ih (by simpa [recHas] using h.2)
    unfold recLookup at h2 ⊢
    simp only [List.filter_cons, h.1]
    exact h2

/-- Auxiliary: the source's `!(key in shared) || shared[key] !== value` test
agrees with the spec's lookup-based one. -/
theorem uniqueEntryTest_eq (m : Rec) (k v : String) :
    (!(recHas m k) || recLookup m k != some v) = decide (¬ recLookup m k = some v) := by
  cases h : recHas m k with
  | false =>
    rw [recLookup_eq_none_of_recHas_false m k h]
    rfl
  | true =>
    cases h2 : recLookup m k with
    | none => rfl
    | some w =>
      by_cases hw : w = v
      · subst hw
        simp
      · simp [hw]

/-- Auxiliary: the source's unique-package computation equals the spec's. -/
theorem getUniquePackages_eq_spec (venv : RtVenv) :
    getUniquePackages venv = specPkgDetailSource venv := by
  unfold getUniquePackages specPkgDetailSource
  have hfil :
      venv.pkgs.filter
          (fun e => !(recHas venv.shared_pkgs e.1) || recLookup venv.shared_pkgs e.1 != some e.2)
        = venv.pkgs.filter
          (fun e => decide (¬ recLookup venv.shared_pkgs e.1 = some e.2)) := by
    apply List.filter_congr
    intro e _
    exact uniqueEntryTest_eq venv.shared_pkgs e.1 e.2
  rw [hfil]
  exact if_pos_length_eq _ _

/-- Auxiliary: the source's context-env diff equals the spec's. -/
theorem getContextEnvDiff_eq_spec (ctx : RtExecutionContext) (venv : RtVenv) :
    getContextEnvDiff ctx venv = specEnvDiffSource ctx venv := by
  unfold getContextEnvDiff specEnvDiffSource
  apply List.filter_congr
  intro e _
  exact uniqueEntryTest_eq venv.shared_env e.1 e.2

/-- Auxiliary: the source's truncating formatter equals the spec's. -/
theorem formatEntries_eq_spec (m : Rec) : formatEntries m = specFormatDetail m := by
  unfold formatEntries specFormatDetail
  by_cases hm : m = []
  · simp [hm]
  · have hlen : ¬ m.length = 0 := by simpa [List.length_eq_zero] using hm
    simp only [hm, if_neg hm, if_neg hlen]
    have hmaptake :
        (List.take 2 (sortEntriesByKey m)).map
            (fun e => e.1 ++ "=" ++ (if e.2 == "" then "latest" else e.2))
          = (List.map (fun e => e.1 ++ "=" ++ (if e.2 == "" then "latest" else e.2))
              (sortEntriesByKey m)).take 2 := by
      rw [List.map_take]
    rw [hmaptake]
    congr 1
    set n := (sortEntriesByKey m).length with hn
    have hshownlen :
        ((List.map (fun e => e.1 ++ "=" ++ (if e.2 == "" then "latest" else e.2))
            (sortEntriesByKey m)).take 2).length = min 2 n := by
      simp [hn]
    rw [hshownlen]
    by_cases hle : n ≤ 2
    · have hrem : n - min 2 n = 0 := by omega
      rw [hrem]
      simp [hle]
    · have hrem : n - min 2 n = n - 2 := by omega
      have hpos : 0 < n - 2 := by omega
      rw [hrem]
      simp only [if_pos hpos, if_neg hle]
      simp [string_append_assoc]

/-- C9: `buildDisplayNames` computes the reference display name — unique
packages falling back to all packages, lexicographically sorted two-entry
truncated `key=value` details with empty values rendered `latest`, omitted
empty segments, and the context hash as sole fallback detail; a descriptor
never formats as having no packages while it has some; and the claim's
concrete instance: packages `pytest=7.0, attrs=` against shared `pytest=7.0`
with an empty env diff display as `<name> (<python>) | attrs=latest`. -/
theorem C9_buildDisplayNames_spec :
    (∀ venv ctx, (buildDisplayNames venv ctx).displayName = specDisplayName venv ctx)
    ∧ (∀ venv : RtVenv, venv.pkgs ≠ [] → getUniquePackages venv ≠ [])
    ∧ (∀ name python hash : String,
        (buildDisplayNames
            { hash := "v1", venv_path := "/v", name := name, python := python
              pkgs := [("pytest", "7.0"), ("attrs", "")]
              shared_pkgs := [("pytest", "7.0")], shared_env := []
              execution_contexts := [] }
            { hash := hash, venv_path := "/v/c", command := none, pytest_target := none
              env := [], create := false, skip_dev_install := false }).displayName
          = name ++ " (" ++ python ++ ") | attrs=latest") := by
  refine ⟨?_, ?_, ?_⟩
  · intro venv ctx
    unfold buildDisplayNames specDisplayName
    rw [getUniquePackages_eq_spec, getContextEnvDiff_eq_spec,
      formatEntries_eq_spec, formatEntries_eq_spec]
    simp only []
    rcases h : [specFormatDetail (specPkgDetailSource venv),
        specFormatDetail (specEnvDiffSource ctx venv)].filterMap id with _ | ⟨x, xs⟩ <;>
      simp [h, string_append_assoc]
  · intro venv h
    unfold getUniquePackages
    rcases hf : venv.pkgs.filter
        (fun e => !(recHas venv.shared_pkgs e.1) || recLookup venv.shared_pkgs e.1 != some e.2)
      with _ | ⟨x, xs⟩ <;> simp [hf, h]
  · intro name python hash
    show (buildDisplayNames _ _).displayName = _
    simp [buildDisplayNames, getUniquePackages, getContextEnvDiff, recHas, recLookup,
      formatEntries, sortEntriesByKey, insertEntry, strLe, charsLe, joinSep,
      string_append_assoc]

/-- Witness for C9 at a concrete input: a descriptor with one package and a
shared-packages map that swallows it still formats with a package segment. -/
theorem C9_witness :
    getUniquePackages
        { hash := "w", venv_path := "/w", name := "n", python := "3"
          pkgs := [("pytest", "7.0")], shared_pkgs := [("pytest", "7.0")]
          shared_env := [], execution_contexts := [] } ≠ [] :=
  C9_buildDisplayNames_spec.2.1 _ (by decide)

/-! ## Catalog diffing (claim C4) -/

/-- Auxiliary: in a list with pairwise distinct identities, exactly one element
carries a given present identity. -/
theorem countP_envId (l : List PyEnv) (i : String)
    (hl : (l.map (fun e => e.envId)).Nodup) :
    l.countP (fun e => e.envId == i) = if i ∈ l.map (fun e => e.envId) then 1 else 0 := by
  induction l with
  | nil => simp
  | cons a rest ih =>
    simp only [List.map_cons, List.nodup_cons] at hl
    rw [List.countP_cons, ih hl.2]
    by_cases ha : a.envId = i
    · subst ha
      simp [hl.1]
    · simp [ha, Ne.symm ha]

/-- Auxiliary: counting one kind of event over the mapped filter underlying
`computeChanges`. -/
theorem countP_diffmap (k : ChangeKind) (l : List PyEnv) (q : PyEnv → Bool) (i : String) :
    ((l.filter q).map (fun e => ({ kind := k, environment := e } : EnvChange))).countP
        (fun c => c.kind == k && c.environment.envId == i)
      = l.countP (fun e => e.envId == i && q e) := by
  induction l with
  | nil => rfl
  | cons a rest ih =>
    rw [List.filter_cons, List.countP_cons]
    by_cases hq : q a
    · simp only [hq, if_true, List.map_cons, List.countP_cons, ih]
      by_cases ha : a.envId = i <;> simp [ha]
    · simp only [hq, Bool.false_eq_true, if_false, ih]
      simp [hq]

/-- Auxiliary: events of the other kind never count. -/
theorem countP_diffmap_ne (k k2 : ChangeKind) (hk : ¬ k = k2) (l : List PyEnv)
    (q : PyEnv → Bool) (i : String) :
    ((l.filter q).map (fun e => ({ kind := k, environment := e } : EnvChange))).countP
        (fun c => c.kind == k2 && c.environment.envId == i) = 0 := by
  rw [List.countP_eq_zero]
  intro c hc
  simp only [List.mem_map] at hc
  obtain ⟨e, _, rfl⟩ := hc
  simp [hk]

/-- Auxiliary: counting identities of `l` outside `ids` under uniqueness. -/
theorem countP_fresh (l : List PyEnv) (ids : List String) (i : String)
    (hl : (l.map (fun e => e.envId)).Nodup) :
    l.countP (fun e => e.envId == i && !(ids.contains e.envId))
      = if i ∈ l.map (fun e => e.envId) ∧ i ∉ ids then 1 else 0 := by
  by_cases hi : i ∈ ids
  · have hz : l.countP (fun e => e.envId == i && !(ids.contains e.envId)) = 0 := by
      rw [List.countP_eq_zero]
      intro e _ hx
      simp only [Bool.and_eq_true, beq_iff_eq] at hx
      rcases hx with ⟨rfl, hx2⟩
      simp [List.contains, List.elem_eq_mem, hi] at hx2
    rw [hz]
    simp [hi]
  · have hpt : ∀ e ∈ l, (e.envId == i && !(ids.contains e.envId)) ↔ (e.envId == i) = true := by
      intro e _
      constructor
      · intro hx
        simp only [Bool.and_eq_true] at hx
        exact hx.1
      · intro hx
        have he : e.envId = i := by simpa using hx
        subst he
        simp [List.contains, List.elem_eq_mem, hi]
    rw [List.countP_congr hpt, countP_envId l i hl]
    simp [hi]

/-- C4: for snapshots with unique identities, `computeChanges` is the `add`
events for `next`'s fresh identities in `next`'s order followed by the
`remove` events for `previous`'s vanished identities in `previous`'s order;
each fresh identity gets exactly one `add` and each vanished identity exactly
one `remove`; and identities present in both snapshots generate no event at
all, whatever happened to their display metadata. -/
theorem C4_computeChanges_spec (P N : List PyEnv)
    (hP : (P.map (fun e => e.envId)).Nodup) (hN : (N.map (fun e => e.envId)).Nodup) :
    (computeChanges P N
        = (N.filter (fun e => !((P.map (fun x => x.envId)).contains e.envId))).map
            (fun e => { kind := ChangeKind.add, environment := e })
          ++ (P.filter (fun e => !((N.map (fun x => x.envId)).contains e.envId))).map
            (fun e => { kind := ChangeKind.remove, environment := e }))
      ∧ (∀ i : String,
          (computeChanges P N).countP
              (fun c => c.kind == ChangeKind.add && c.environment.envId == i)
            = if i ∈ N.map (fun e => e.envId) ∧ i ∉ P.map (fun e => e.envId) then 1 else 0)
      ∧ (∀ i : String,
          (computeChanges P N).countP
              (fun c => c.kind == ChangeKind.remove && c.environment.envId == i)
            = if i ∈ P.map (fun e => e.envId) ∧ i ∉ N.map (fun e => e.envId) then 1 else 0)
      ∧ (∀ c ∈ computeChanges P N,
          ¬ (c.environment.envId ∈ P.map (fun e => e.envId)
              ∧ c.environment.envId ∈ N.map (fun e => e.envId))) := by
  refine ⟨rfl, ?_, ?_, ?_⟩
  · intro i
    unfold computeChanges
    rw [List.countP_append,
      countP_diffmap ChangeKind.add N
        (fun e => !((P.map (fun x => x.envId)).contains e.envId)) i,
      countP_diffmap_ne ChangeKind.remove ChangeKind.add (by decide) P
        (fun e => !((N.map (fun x => x.envId)).contains e.envId)) i,
      Nat.add_zero,
      countP_fresh N (P.map (fun x => x.envId)) i hN]
  · intro i
    unfold computeChanges
    rw [List.countP_append,
      countP_diffmap ChangeKind.remove P
        (fun e => !((N.map (fun x => x.envId)).contains e.envId)) i,
      countP_diffmap_ne ChangeKind.add ChangeKind.remove (by decide) N
        (fun e => !((P.map (fun x => x.envId)).contains e.envId)) i,
      Nat.zero_add,
      countP_fresh P (N.map (fun x => x.envId)) i hP]
  · intro c hc hboth
    unfold computeChanges at hc
    rw [List.mem_append] at hc
    rcases hc with hc | hc
    · simp only [List.mem_map] at hc
      obtain ⟨e, he, rfl⟩ := hc
      rw [List.mem_filter] at he
      have hni : e.envId ∉ P.map (fun x => x.envId) := by
        have h2 := he.2
        simpa [List.contains, List.elem_eq_mem] using h2
      exact hni hboth.1
    · simp only [List.mem_map] at hc
      obtain ⟨e, he, rfl⟩ := hc
      rw [List.mem_filter] at he
      have hni : e.envId ∉ N.map (fun x => x.envId) := by
        have h2 := he.2
        simpa [List.contains, List.elem_eq_mem] using h2
      exact hni hboth.2

/-- Witness for C4 at concrete snapshots: identity `a` persists with changed
display metadata and produces no event, `b` vanishes, `c` appears. -/
theorem C4_witness :
    computeChanges [pe "a" "old-a", pe "b" "b"] [pe "a" "new-a", pe "c" "c"]
        = [{ kind := ChangeKind.add, environment := pe "c" "c" },
           { kind := ChangeKind.remove, environment := pe "b" "b" }]
      ∧ (computeChanges [pe "a" "old-a", pe "b" "b"] [pe "a" "new-a", pe "c" "c"]).countP
          (fun c => c.kind == ChangeKind.add && c.environment.envId == "c") = 1 := by
  have h := C4_computeChanges_spec [pe "a" "old-a", pe "b" "b"] [pe "a" "new-a", pe "c" "c"]
    (by decide) (by decide)
  refine ⟨?_, ?_⟩
  · rw [h.1]
    decide
  · rw [h.2.1 "c"]
    decide

/-! ## CLI output validation (claim C10) -/

/-- Auxiliary: the string-field test of the guard, spelled as an existential. -/
theorem matchStr_iff (o : Option JVal) :
    (match o with | some (JVal.str _) => true | _ => false) = true
      ↔ ∃ s, o = some (JVal.str s) := by
  rcases o with _ | v
  · simp
  · rcases v <;> simp

/-- Auxiliary: the array-field test of the guard, spelled as an existential. -/
theorem matchArr_iff (o : Option JVal) :
    (match o with | some (JVal.arr _) => true | _ => false) = true
      ↔ ∃ xs, o = some (JVal.arr xs) := by
  rcases o with _ | v
  · simp
  · rcases v <;> simp

/-- Auxiliary: the boolean guard recognizes exactly the claim's shape. -/
theorem isValidRtVenv_iff (v : JVal) : isValidRtVenv v = true ↔ ValidShape v := by
  constructor
  · intro hv
    cases v with
    | obj fields =>
      simp only [isValidRtVenv, Bool.and_eq_true] at hv
      exact ⟨fields, rfl, (matchStr_iff _).mp hv.1.1.1.1, (matchStr_iff _).mp hv.1.1.1.2,
        (matchStr_iff _).mp hv.1.1.2, (matchStr_iff _).mp hv.1.2, (matchArr_iff _).mp hv.2⟩
    | str s => exact absurd hv (by simp [isValidRtVenv])
    | num n => exact absurd hv (by simp [isValidRtVenv])
    | jbool b => exact absurd hv (by simp [isValidRtVenv])
    | jnull => exact absurd hv (by simp [isValidRtVenv])
    | arr xs => exact absurd hv (by simp [isValidRtVenv])
  · rintro ⟨fields, rfl, ⟨s1, e1⟩, ⟨s2, e2⟩, ⟨s3, e3⟩, ⟨s4, e4⟩, ⟨xs, e5⟩⟩
    simp only [isValidRtVenv]
    rw [e1, e2, e3, e4, e5]
    rfl

/-- Auxiliary: extraction succeeds exactly on elements the guard accepts. -/
theorem extractVenv_isSome (v : JVal) : (extractVenv v).isSome = isValidRtVenv v := by
  by_cases hv : isValidRtVenv v = true
  · rw [hv]
    obtain ⟨fields, rfl, ⟨s1, e1⟩, ⟨s2, e2⟩, ⟨s3, e3⟩, ⟨s4, e4⟩, ⟨xs, e5⟩⟩ :=
      (isValidRtVenv_iff v).mp hv
    simp only [extractVenv]
    rw [e1, e2, e3, e4, e5]
    rfl
  · have hv2 : isValidRtVenv v = false := by simpa using hv
    rw [hv2]
    cases hx : extractVenv v with
    | none => rfl
    | some r =>
      exfalso
      apply hv
      cases v with
      | obj fields =>
        simp only [extractVenv] at hx
        rw [isValidRtVenv_iff]
        split at hx
        next h vp nm py ctxs q1 q2 q3 q4 q5 =>
          exact ⟨fields, rfl, ⟨_, q1⟩, ⟨_, q2⟩, ⟨_, q3⟩, ⟨_, q4⟩, ⟨_, q5⟩⟩
        next => exact absurd hx (by simp)
      | str s => exact absurd hx (by simp [extractVenv])
      | num n => exact absurd hx (by simp [extractVenv])
      | jbool b => exact absurd hx (by simp [extractVenv])
      | jnull => exact absurd hx (by simp [extractVenv])
      | arr xs => exact absurd hx (by simp [extractVenv])

/-- Auxiliary: filtering by the guard then extracting is a plain `filterMap`. -/
theorem parseVenvsArr_eq_filterMap (xs : List JVal) :
    parseVenvsArr xs = xs.filterMap extractVenv := by
  induction xs with
  | nil => rfl
  | cons a rest ih =>
    unfold parseVenvsArr at ih ⊢
    rw [List.filter_cons, List.filterMap_cons]
    by_cases ha : isValidRtVenv a = true
    · have hsome : (extractVenv a).isSome = true := by rw [extractVenv_isSome, ha]
      obtain ⟨r, hr⟩ := Option.isSome_iff_exists.mp hsome
      rw [ha, hr]
      simp only [if_true, List.filterMap_cons, hr]
      rw [ih]
    · have hnone : extractVenv a = none := by
        have : (extractVenv a).isSome = false := by
          rw [extractVenv_isSome]
          simpa using ha
        simpa [Option.isSome_iff_exists] using this
      simp only [ha, Bool.false_eq_true, if_false, hnone]
      exact ih

/-- C10: parsing an array JSON root retains exactly the elements that are
objects carrying a string `hash`, `venv_path`, `name` and `python` and an
array `execution_contexts` — every other element is dropped without failing —
and a retained element whose `pkgs`, `shared_pkgs` or `shared_env` field is
absent gets that field defaulted to an empty map. -/
theorem C10_parseVenvs_spec :
    (∀ v : JVal, isValidRtVenv v = true ↔ ValidShape v)
    ∧ (∀ v : JVal, (extractVenv v).isSome = isValidRtVenv v)
    ∧ (∀ xs : List JVal, parseVenvsArr xs = xs.filterMap extractVenv)
    ∧ (∀ fields : List (String × JVal), ∀ r : RawVenv,
        extractVenv (JVal.obj fields) = some r →
        (jLookup fields "pkgs" = none → r.pkgs = JVal.obj [])
          ∧ (jLookup fields "shared_pkgs" = none → r.shared_pkgs = JVal.obj [])
          ∧ (jLookup fields "shared_env" = none → r.shared_env = JVal.obj [])) := by
  refine ⟨isValidRtVenv_iff, extractVenv_isSome, parseVenvsArr_eq_filterMap, ?_⟩
  intro fields r hx
  simp only [extractVenv] at hx
  split at hx
  next h vp nm py ctxs q1 q2 q3 q4 q5 =>
    cases hx
    refine ⟨?_, ?_, ?_⟩ <;> (intro hnone; simp [hnone, defaultRec])
  next => exact absurd hx (by simp)

/-- Witness for C10 at a concrete input: a well-shaped object with `pkgs`
absent parses with an empty-map default, and an ill-shaped element is
dropped. -/
theorem C10_witness :
    (extractVenv (JVal.obj [("hash", JVal.str "h1"), ("venv_path", JVal.str "/v"),
        ("name", JVal.str "n"), ("python", JVal.str "3"),
        ("execution_contexts", JVal.arr [])])).isSome = true
      ∧ parseVenvsArr [JVal.num 5] = [] := by
  constructor
  · rw [C10_parseVenvs_spec.2.1]
    rfl
  · rw [C10_parseVenvs_spec.2.2.1 [JVal.num 5]]
    rfl

/-! ## Catalog-cache fail-soft behaviour (claim C5) -/

/-- C5 counterexample: with a non-empty cached snapshot, a forced fetch whose
discovery output parses to a non-array JSON root (here `{}`) returns the empty
sequence, not the previously cached snapshot the claim promises. -/
theorem C5_counterexample :
    (fetchEnvironmentsCF (fun _ => []) (some [pe "e1" "e1"]) true
        (DiscoveryOutcome.parsed (JVal.obj []))).1 = []
      ∧ ([] : List PyEnv) ≠ [pe "e1" "e1"] :=
  ⟨rfl, by decide⟩

/-- C5 amended: a catalog fetch never throws on a discovery failure — the
control flow is total and, on a failed subprocess or unparseable output,
answers the previously cached snapshot for the workspace (or the empty
sequence if none exists) leaving the cache untouched; a parsed non-array JSON
root, however, yields the empty sequence even when a cached snapshot exists. -/
theorem C5_fetchEnvironments_failsoft
    (materialize : List JVal → List PyEnv) (cache : Option (List PyEnv)) :
    (∀ force msg,
        fetchEnvironmentsCF materialize cache force (DiscoveryOutcome.execError msg)
          = (cache.getD [], cache))
    ∧ (∀ force msg,
        fetchEnvironmentsCF materialize cache force (DiscoveryOutcome.parseError msg)
          = (cache.getD [], cache))
    ∧ (∀ v : JVal, (∀ xs, ¬ v = JVal.arr xs) →
        fetchEnvironmentsCF materialize cache true (DiscoveryOutcome.parsed v)
          = ([], cache)) := by
  refine ⟨?_, ?_, ?_⟩
  · intro force msg
    cases cache with
    | none => cases force <;> rfl
    | some c => cases force <;> rfl
  · intro force msg
    cases cache with
    | none => cases force <;> rfl
    | some c => cases force <;> rfl
  · intro v hv
    have hstep :
        (match v with
          | JVal.arr xs => (materialize xs, some (materialize xs))
          | _ => (([] : List PyEnv), cache)) = (([] : List PyEnv), cache) := by
      cases v with
      | arr xs => exact absurd rfl (hv xs)
      | str s => rfl
      | num n => rfl
      | jbool b => rfl
      | jnull => rfl
      | obj fields => rfl
    cases cache with
    | none => simp [fetchEnvironmentsCF, hstep]
    | some c => simp [fetchEnvironmentsCF, hstep]

/-- Witness for C5 at concrete inputs: a failed subprocess serves the cached
snapshot; an unparseable output with no cache serves the empty sequence. -/
theorem C5_witness :
    fetchEnvironmentsCF (fun _ => []) (some [pe "e1" "e1"]) true
        (DiscoveryOutcome.execError "exit 1") = ([pe "e1" "e1"], some [pe "e1" "e1"])
      ∧ fetchEnvironmentsCF (fun _ => []) none true
        (DiscoveryOutcome.parseError "bad json") = ([], none) :=
  ⟨(C5_fetchEnvironments_failsoft (fun _ => []) (some [pe "e1" "e1"])).1 true "exit 1",
   (C5_fetchEnvironments_failsoft (fun _ => []) none).2.1 true "bad json"⟩

/-! ## Clearing the selection (claim C7) -/

/-- C7: a `set(w, none)` always clears the test configuration, clears the
persisted selection, transitions the workspace to Idle, and fires the
selection-changed event with the previously active candidate as old value and
none as new value — unconditionally, even when no candidate was previously
active. -/
theorem C7_clearEnvironment_spec (s : OrchState) :
    (clearEnvironmentRun s).1.current = none
      ∧ (clearEnvironmentRun s).1.persisted = none
      ∧ (clearEnvironmentRun s).2
          = [Effect.configWrite none, Effect.persistWrite none,
             Effect.setCurrent none, Effect.fireEvent s.current none] :=
  ⟨rfl, rfl, rfl⟩

/-- Witness for C7 at the empty state: with no previously active candidate the
clear still writes both sinks and fires the event (`old = none`). -/
theorem C7_witness :
    (clearEnvironmentRun s0).2
      = [Effect.configWrite none, Effect.persistWrite none,
         Effect.setCurrent none, Effect.fireEvent none none] :=
  (C7_clearEnvironment_spec s0).2.2

/-! ## Cancellation of an activation (claims C2, C3, C1) -/

/-- Auxiliary: an activation whose token aborts while the build is pending
performs nothing beyond the build call, leaves the state untouched, and
settles as swallowed cancellation. -/
theorem activate_abort0 (o : ActCtx) (s : OrchState) (env : PyEnv)
    (prev : Option PyEnv) (h : o.abortAt = some 0) :
    activateEnvironmentRun o s env prev
      = (s, [Effect.buildCall env.envId], ActOutcome.cancelled) := by
  unfold activateEnvironmentRun
  rw [h]
  rfl

/-- Auxiliary: the effect trace and end state of a fully successful
activation run. -/
theorem activate_success_run (o : ActCtx) (s : OrchState) (env : PyEnv)
    (prev : Option PyEnv) (vs : List RtVenv) (venv : RtVenv) (ctx : RtExecutionContext)
    (h0 : ¬ o.abortAt = some 0) (hb : o.buildResult = Except.ok ())
    (hl : o.listResult = Except.ok vs)
    (hfind : findVenvByHash vs env.envId = some venv)
    (hctx : venv.execution_contexts.find? (fun c => c.hash == env.envId) = some ctx)
    (hfs : o.fsExists (buildEnvironment venv ctx).runExecutable = true) :
    activateEnvironmentRun o s env prev
      = ({ current := some (buildEnvironment venv ctx)
           persisted := some (buildEnvironment venv ctx).envId },
         [Effect.buildCall env.envId, Effect.listCall,
          Effect.configWrite (some ctx),
          Effect.setCurrent (some (buildEnvironment venv ctx)),
          Effect.persistWrite (some (buildEnvironment venv ctx).envId),
          Effect.fireEvent prev (some (buildEnvironment venv ctx))],
         ActOutcome.completed) := by
  unfold activateEnvironmentRun
  rw [if_neg h0]
  simp [hb, hl, hfind, hctx, hfs]

/-- Auxiliary: the identity a successful activation re-materializes is the
requested one. -/
theorem activate_ctx_hash (venv : RtVenv) (ctx : RtExecutionContext) (i : String)
    (hctx : venv.execution_contexts.find? (fun c => c.hash == i) = some ctx) :
    (buildEnvironment venv ctx).envId = i := by
  have h := List.find?_some hctx
  have : ctx.hash = i := by simpa using h
  simpa [buildEnvironment] using this

/-- C2 counterexample: a cancellation raised during step (ii) — the catalog
re-fetch, after the build settled — does not abort the sequence: the run still
writes the test configuration, transitions to Active, persists the selection
and fires the selection-changed event. -/
theorem C2_counterexample :
    oracleAbortDuringList.abortAt = some 1
      ∧ (activateEnvironmentRun oracleAbortDuringList s0 cand1 none).2.1
          = [Effect.buildCall "h1", Effect.listCall, Effect.configWrite (some ctx1),
             Effect.setCurrent (some cand1), Effect.persistWrite (some "h1"),
             Effect.fireEvent none (some cand1)]
      ∧ (activateEnvironmentRun oracleAbortDuringList s0 cand1 none).1.current
          = some cand1 :=
  ⟨rfl, rfl, rfl⟩

/-- C2 amended: only the build call observes the cancellation token. A
cancellation raised while the build is pending aborts the whole sequence with
no test-configuration write, no persisted-selection write, no transition to
Active and no event; the workspace keeps its prior state and the `set` call
settles as a swallowed cancellation, not an error. A cancellation raised after
the build has settled has no effect on the remaining steps. -/
theorem C2_cancellation_spec (o : ActCtx) (s : OrchState) (env : PyEnv)
    (prev : Option PyEnv) (h : o.abortAt = some 0) :
    (activateEnvironmentRun o s env prev).1 = s
      ∧ (activateEnvironmentRun o s env prev).2.1 = [Effect.buildCall env.envId]
      ∧ (activateEnvironmentRun o s env prev).2.2 = ActOutcome.cancelled := by
  rw [activate_abort0 o s env prev h]
  exact ⟨rfl, rfl, rfl⟩

/-- Witness for C2 at a concrete input: aborting during the build leaves the
empty state untouched and swallows the cancellation. -/
theorem C2_witness :
    (activateEnvironmentRun { oracleSuccess with abortAt := some 0 } s0 cand1 none).1 = s0
      ∧ (activateEnvironmentRun { oracleSuccess with abortAt := some 0 } s0 cand1 none).2.2
          = ActOutcome.cancelled :=
  ⟨(C2_cancellation_spec { oracleSuccess with abortAt := some 0 } s0 cand1 none rfl).1,
   (C2_cancellation_spec { oracleSuccess with abortAt := some 0 } s0 cand1 none rfl).2.2⟩

/-! ## Explicit activation sequence (claim C3) -/

/-- C3 counterexample: in a fully successful activation the in-memory
transition to Active (`setCurrent`) occurs strictly before the
persisted-selection write, contradicting the claimed order "…persistence of
the new selection; and finally the transition to Active…". -/
theorem C3_counterexample :
    (activateEnvironmentRun oracleSuccess s0 cand1 none).2.2 = ActOutcome.completed
      ∧ (activateEnvironmentRun oracleSuccess s0 cand1 none).2.1.any isPersistWriteEff = true
      ∧ (activateEnvironmentRun oracleSuccess s0 cand1 none).2.1.findIdx isSetCurrentEff
          < (activateEnvironmentRun oracleSuccess s0 cand1 none).2.1.findIdx isPersistWriteEff :=
  ⟨rfl, rfl, by decide⟩

/-- C3 amended: a successful `set(w, c)` performs, in order, the CLI build for
c's identity (honoring the token), the forced catalog re-fetch with
re-resolution of c's current materialization (same identity as c), the
on-disk interpreter verification — failing with an interpreter-not-found
condition when it is missing, with no further side effects — then the
test-configuration write, the in-memory transition to Active, the persistence
of the new selection, and finally the selection-changed event
`(old = previous active, new = the re-resolved materialization)`. -/
theorem C3_activation_sequence (o : ActCtx) (s : OrchState) (env : PyEnv)
    (prev : Option PyEnv) (vs : List RtVenv) (venv : RtVenv) (ctx : RtExecutionContext)
    (h0 : ¬ o.abortAt = some 0) (hb : o.buildResult = Except.ok ())
    (hl : o.listResult = Except.ok vs)
    (hfind : findVenvByHash vs env.envId = some venv)
    (hctx : venv.execution_contexts.find? (fun c => c.hash == env.envId) = some ctx) :
    ((buildEnvironment venv ctx).envId = env.envId)
      ∧ (o.fsExists (buildEnvironment venv ctx).runExecutable = true →
          activateEnvironmentRun o s env prev
            = ({ current := some (buildEnvironment venv ctx)
                 persisted := some (buildEnvironment venv ctx).envId },
               [Effect.buildCall env.envId, Effect.listCall,
                Effect.configWrite (some ctx),
                Effect.setCurrent (some (buildEnvironment venv ctx)),
                Effect.persistWrite (some (buildEnvironment venv ctx).envId),
                Effect.fireEvent prev (some (buildEnvironment venv ctx))],
               ActOutcome.completed))
      ∧ (o.fsExists (buildEnvironment venv ctx).runExecutable = false →
          activateEnvironmentRun o s env prev
            = (s, [Effect.buildCall env.envId, Effect.listCall],
               ActOutcome.failed ("Environment interpreter not found: "
                  ++ (buildEnvironment venv ctx).runExecutable))) := by
  refine ⟨activate_ctx_hash venv ctx env.envId hctx, ?_, ?_⟩
  · intro hfs
    exact activate_success_run o s env prev vs venv ctx h0 hb hl hfind hctx hfs
  · intro hfs
    unfold activateEnvironmentRun
    rw [if_neg h0]
    simp [hb, hl, hfind, hctx, hfs]

/-- Witness for C3 at a concrete input: the full successful run on the
fixture catalog. -/
theorem C3_witness :
    activateEnvironmentRun oracleSuccess s0 cand1 none
      = ({ current := some cand1, persisted := some "h1" },
         [Effect.buildCall "h1", Effect.listCall, Effect.configWrite (some ctx1),
          Effect.setCurrent (some cand1), Effect.persistWrite (some "h1"),
          Effect.fireEvent none (some cand1)],
         ActOutcome.completed) :=
  (C3_activation_sequence oracleSuccess s0 cand1 none [venv1] venv1 ctx1
    (by decide) rfl rfl rfl rfl).2.1 rfl

/-! ## Superseding activations (claim C1) -/

/-- C1: when `set(w, B)` arrives while `set(w, A)`'s build is pending, the
coordinator aborts A's activation — terminating A's build subprocess before
B's build is spawned — A performs no test-configuration write, no
persisted-selection write and no event, and (B's own run succeeding) the final
state is Active with B's identity; every persisted-selection write and every
test-configuration write in the combined trace belongs to B. -/
theorem C1_supersede_spec (oA oB : ActCtx) (s : OrchState) (envA envB : PyEnv)
    (vs : List RtVenv) (venv : RtVenv) (ctx : RtExecutionContext)
    (hb0 : ¬ oB.abortAt = some 0) (hbr : oB.buildResult = Except.ok ())
    (hl : oB.listResult = Except.ok vs)
    (hfind : findVenvByHash vs envB.envId = some venv)
    (hctx : venv.execution_contexts.find? (fun c => c.hash == envB.envId) = some ctx)
    (hfs : oB.fsExists (buildEnvironment venv ctx).runExecutable = true) :
    (setSupersede oA oB s envA envB
        = ({ current := some (buildEnvironment venv ctx)
             persisted := some (buildEnvironment venv ctx).envId },
           [Effect.buildCall envA.envId, Effect.killBuild envA.envId,
            Effect.buildCall envB.envId, Effect.listCall, Effect.configWrite (some ctx),
            Effect.setCurrent (some (buildEnvironment venv ctx)),
            Effect.persistWrite (some (buildEnvironment venv ctx).envId),
            Effect.fireEvent s.current (some (buildEnvironment venv ctx))],
           ActOutcome.completed))
      ∧ (buildEnvironment venv ctx).envId = envB.envId
      ∧ (∀ v, Effect.persistWrite v ∈ (setSupersede oA oB s envA envB).2.1 →
          v = some envB.envId)
      ∧ (∀ c, Effect.configWrite c ∈ (setSupersede oA oB s envA envB).2.1 →
          c = some ctx) := by
  have hid := activate_ctx_hash venv ctx envB.envId hctx
  have hA := activate_abort0 { oA with abortAt := some 0 } s envA s.current rfl
  have hB := activate_success_run oB s envB s.current vs venv ctx hb0 hbr hl hfind hctx hfs
  have htuple :
      setSupersede oA oB s envA envB
        = ({ current := some (buildEnvironment venv ctx)
             persisted := some (buildEnvironment venv ctx).envId },
           [Effect.buildCall envA.envId, Effect.killBuild envA.envId,
            Effect.buildCall envB.envId, Effect.listCall, Effect.configWrite (some ctx),
            Effect.setCurrent (some (buildEnvironment venv ctx)),
            Effect.persistWrite (some (buildEnvironment venv ctx).envId),
            Effect.fireEvent s.current (some (buildEnvironment venv ctx))],
           ActOutcome.completed) := by
    simp only [setSupersede, hA, hB]
    rfl
  refine ⟨htuple, hid, ?_, ?_⟩
  · intro v hv
    rw [htuple] at hv
    simp only [List.mem_cons, List.not_mem_nil, or_false] at hv
    rcases hv with h | h | h | h | h | h | h | h <;> (cases h; try rw [hid])
  · intro c hc
    rw [htuple] at hc
    simp only [List.mem_cons, List.not_mem_nil, or_false] at hc
    rcases hc with h | h | h | h | h | h | h | h <;> (cases h; try rfl)

/-- Witness for C1 at a concrete input: superseding a pending activation of
`a0` with the fixture candidate ends Active on the fixture identity with A's
build killed before B's build starts. -/
theorem C1_witness :
    setSupersede oracleSuccess oracleSuccess s0 (pe "a0" "a0") cand1
      = ({ current := some cand1, persisted := some "h1" },
         [Effect.buildCall "a0", Effect.killBuild "a0",
          Effect.buildCall "h1", Effect.listCall, Effect.configWrite (some ctx1),
          Effect.setCurrent (some cand1), Effect.persistWrite (some "h1"),
          Effect.fireEvent none (some cand1)],
         ActOutcome.completed) :=
  (C1_supersede_spec oracleSuccess oracleSuccess s0 (pe "a0" "a0") cand1
    [venv1] venv1 ctx1 (by decide) rfl rfl rfl rfl rfl).1

/-! ## Restoration (claim C6) -/

/-- C6: with no in-memory active candidate, `get(w)` reads the persisted id
and returns nothing when none is stored (doing no CLI or store work); with a
stored id it rebuilds and verifies: a build failure, a missing identity in the
freshly fetched catalog (including an absorbed list failure), or a missing
interpreter each clear the persisted selection and answer nothing without any
failure escaping; success sets the state to Active and returns a candidate
whose identity equals the persisted id, leaving the persisted selection in
place; and after a cleanup the next `get(w)` answers nothing immediately,
repeating no build, fetch or store write. -/
theorem C6_restore_spec (o : RestoreCtx) (s : OrchState) (hcur : s.current = none) :
    (s.persisted = none → getEnvRun o s = (s, [Effect.setCurrent none], none))
    ∧ (∀ savedId msg, s.persisted = some savedId → o.buildResult = Except.error msg →
        getEnvRun o s
          = ({ current := none, persisted := none },
             [Effect.setCurrent none, Effect.buildCall savedId,
              Effect.persistWrite none, Effect.setCurrent none], none))
    ∧ (∀ savedId, s.persisted = some savedId → o.buildResult = Except.ok () →
        (restoreCatalog o).find? (fun e => e.envId == savedId) = none →
        getEnvRun o s
          = ({ current := none, persisted := none },
             [Effect.setCurrent none, Effect.buildCall savedId, Effect.listCall,
              Effect.persistWrite none, Effect.setCurrent none], none))
    ∧ (∀ savedId r, s.persisted = some savedId → o.buildResult = Except.ok () →
        (restoreCatalog o).find? (fun e => e.envId == savedId) = some r →
        o.fsExists r.runExecutable = false →
        getEnvRun o s
          = ({ current := none, persisted := none },
             [Effect.setCurrent none, Effect.buildCall savedId, Effect.listCall,
              Effect.persistWrite none, Effect.setCurrent none], none))
    ∧ (∀ savedId r, s.persisted = some savedId → o.buildResult = Except.ok () →
        (restoreCatalog o).find? (fun e => e.envId == savedId) = some r →
        o.fsExists r.runExecutable = true →
        (getEnvRun o s
            = ({ current := some r, persisted := some savedId },
               [Effect.setCurrent none, Effect.buildCall savedId, Effect.listCall,
                Effect.setCurrent (some r)], some r)
          ∧ r.envId = savedId))
    ∧ (getEnvRun o { current := none, persisted := none }
        = ({ current := none, persisted := none }, [Effect.setCurrent none], none)) := by
  obtain ⟨cur, per⟩ := s
  obtain rfl : cur = none := hcur
  refine ⟨?_, ?_, ?_, ?_, ?_, rfl⟩
  · intro hper
    obtain rfl : per = none := hper
    rfl
  · intro savedId msg hper hbuild
    obtain rfl : per = some savedId := hper
    simp [getEnvRun, restoreEnvironmentRun, hbuild]
  · intro savedId hper hbuild hmiss
    obtain rfl : per = some savedId := hper
    simp [getEnvRun, restoreEnvironmentRun, hbuild, hmiss]
  · intro savedId r hper hbuild hfound hfs
    obtain rfl : per = some savedId := hper
    simp [getEnvRun, restoreEnvironmentRun, hbuild, hfound, hfs]
  · intro savedId r hper hbuild hfound hfs
    obtain rfl : per = some savedId := hper
    constructor
    · simp [getEnvRun, restoreEnvironmentRun, hbuild, hfound, hfs]
    · have h := List.find?_some hfound
      simpa using h

/-- Witness for C6 at concrete inputs: a successful restoration returns the
persisted identity and goes Active; a failed rebuild clears the persisted
selection and returns nothing. -/
theorem C6_witness :
    (getEnvRun oracleRestoreOk { current := none, persisted := some "h1" }
        = ({ current := some cand1n, persisted := some "h1" },
           [Effect.setCurrent none, Effect.buildCall "h1", Effect.listCall,
            Effect.setCurrent (some cand1n)], some cand1n)
      ∧ cand1n.envId = "h1")
      ∧ getEnvRun oracleRestoreFail { current := none, persisted := some "h1" }
          = ({ current := none, persisted := none },
             [Effect.setCurrent none, Effect.buildCall "h1",
              Effect.persistWrite none, Effect.setCurrent none], none) :=
  ⟨(C6_restore_spec oracleRestoreOk { current := none, persisted := some "h1" }
      rfl).2.2.2.2.1 "h1" cand1n rfl rfl (by rfl) rfl,
   (C6_restore_spec oracleRestoreFail { current := none, persisted := some "h1" }
      rfl).2.1 "h1" "exit 1" rfl rfl⟩

end RtSpec
